import Mathlib

/-!
Shallow embedding of the Zilliqa DirectoryService core: the DS state
machine (`CheckState`), the PoW submission intake pipeline
(`ProcessPoWSubmission`, `ParseMessageAndVerifyPOW`,
`VerifyPoWSubmission`), the adaptive difficulty computation
(`CalculateNewDifficulty`), epoch cleanup (`CleanVariables`) and the
message dispatcher (`Execute`).

Machine integers are modelled as `Nat`/`Int` with explicit `% 2 ^ w`
where the C++ code can overflow (the `uint8_t` difficulty, the
`uint32_t` submission counter, `int64_t` SafeMath).  `std::map`s keyed
by public keys are modelled as association lists with `std::map`
operation semantics (`mapFind`, `mapSet` for `operator[]=`,
`mapEmplace` for `emplace`, which does not overwrite).  External
collaborators that the source treats as black boxes (Schnorr signature
verification, the PoW verifier, the whitelist, IP validation, wire
deserialization success) appear as boolean fields of `PowEnv`.
Concurrent re-reads of `m_state` are modelled by extra state snapshots
in `PowEnv` (`stateAtRecheck`, `stateAfterWait`).
-/

namespace Zilliqa

/-- DirectoryService::DirState (DirectoryService.h). -/
inductive DirState
  | POW_SUBMISSION
  | DSBLOCK_CONSENSUS_PREP
  | DSBLOCK_CONSENSUS
  | MICROBLOCK_SUBMISSION
  | FINALBLOCK_CONSENSUS_PREP
  | FINALBLOCK_CONSENSUS
  | VIEWCHANGE_CONSENSUS_PREP
  | VIEWCHANGE_CONSENSUS
  | ERROR
deriving DecidableEq, Fintype

/-- DirectoryService::Action (DirectoryService.h). -/
inductive Action
  | PROCESS_POWSUBMISSION
  | VERIFYPOW
  | PROCESS_DSBLOCKCONSENSUS
  | PROCESS_MICROBLOCKSUBMISSION
  | PROCESS_FINALBLOCKCONSENSUS
  | PROCESS_VIEWCHANGECONSENSUS
deriving DecidableEq, Fintype

/-- DirectoryService::Mode. -/
inductive Mode
  | IDLE
  | PRIMARY_DS
  | BACKUP_DS
deriving DecidableEq, Fintype

/-- SyncType of the lookup collaborator; the dispatcher only tests
whether it equals NO_SYNC. -/
inductive SyncType
  | NO_SYNC
  | NEW_SYNC
  | DS_SYNC
  | LOOKUP_SYNC
deriving DecidableEq, Fintype

/-- A peer endpoint: (ip address, listening port). -/
abbrev Peer := Nat × Nat

/-- A 32-byte hash, abstracted to its value. -/
abbrev Hash32 := Nat

/-- Lookup in an association list, mirroring std::map::find on a map
whose entries have pairwise distinct keys. -/
def mapFind {V : Type} : List (Nat × V) → Nat → Option V
  | [], _ => none
  | (k0, v0) :: rest, k => if k0 = k then some v0 else mapFind rest k

/-- std::map operator[]= semantics: overwrite the entry if the key is
present, otherwise insert it. -/
def mapSet {V : Type} : List (Nat × V) → Nat → V → List (Nat × V)
  | [], k, v => [(k, v)]
  | (k0, v0) :: rest, k, v =>
      if k0 = k then (k, v) :: rest else (k0, v0) :: mapSet rest k v

/-- std::map::emplace semantics: insert only if the key is absent. -/
def mapEmplace {V : Type} (m : List (Nat × V)) (k : Nat) (v : V) :
    List (Nat × V) :=
  if (mapFind m k).isSome then m else m ++ [(k, v)]

/-- Protocol configuration constants (constants.xml, outside src); the
spec lists them as startup configuration, so they are parameters of
the model.  Integer-typed ones are `Int` where the C++ arithmetic is
signed 64-bit. -/
structure Constants where
  POW_DIFFICULTY : Nat
  DS_POW_DIFFICULTY : Nat
  POW_SUBMISSION_LIMIT : Nat
  NUM_NETWORK_NODE : Int
  POW_CHANGE_PERCENT_TO_ADJ_DIFF : Int
  POW_WINDOW_IN_SECONDS : Nat
  NUM_FINAL_BLOCK_PER_POW : Nat
  TX_DISTRIBUTE_TIME_IN_MS : Nat
deriving DecidableEq

/-- The mutable DirectoryService member state touched by the modelled
operations. -/
structure DS where
  state : DirState
  mode : Mode
  allPoWConns : List (Nat × Peer)
  allPoWs : List (Nat × Hash32)
  allDSPoWs : List (Nat × Hash32)
  allPoWCounter : List (Nat × Nat)
  viewChangeCounter : Nat
  consensusLeaderID : Nat
  consensusID : Nat
  shards : List (List Nat)
  publicKeyToShardIdMap : List (Nat × Nat)
  microBlocks : List Nat
  sharingAssignment : List Nat
  lastDSBlockNum : Nat
  lastDSDifficulty : Nat
  lastDifficulty : Nat
  currentEpochNum : Nat
deriving DecidableEq

/-- ACTIONS_FOR_STATE, the static multimap inside
DirectoryService::CheckState. -/
def ACTIONS_FOR_STATE : List (DirState × Action) :=
  [(DirState.POW_SUBMISSION, Action.PROCESS_POWSUBMISSION),
   (DirState.POW_SUBMISSION, Action.VERIFYPOW),
   (DirState.DSBLOCK_CONSENSUS, Action.PROCESS_DSBLOCKCONSENSUS),
   (DirState.MICROBLOCK_SUBMISSION, Action.PROCESS_MICROBLOCKSUBMISSION),
   (DirState.FINALBLOCK_CONSENSUS, Action.PROCESS_FINALBLOCKCONSENSUS),
   (DirState.VIEWCHANGE_CONSENSUS, Action.PROCESS_VIEWCHANGECONSENSUS)]

/-- DirectoryService::CheckState: on a lookup node it returns true at
once; with mode IDLE it warns and returns false; otherwise it scans
the multimap entries whose key is the current state for the action
(the lower_bound/upper_bound loop).  It reads but never writes the
node state. -/
def CheckState (lookupNodeMode : Bool) (mode : Mode) (state : DirState)
    (action : Action) : Bool :=
  if lookupNodeMode then true
  else if mode = Mode.IDLE then false
  else ACTIONS_FOR_STATE.any fun p => decide (p.1 = state ∧ p.2 = action)

def int64Min : Int := -(2 ^ 63)

def int64Max : Int := 2 ^ 63 - 1

/-- Modelled from the spec: SafeMath is library code outside src; the
checked int64 subtraction fails (and the caller falls back to 0) on
int64 overflow. -/
def SafeMath.sub (a b : Int) : Option Int :=
  if int64Min ≤ a - b ∧ a - b ≤ int64Max then some (a - b) else none

/-- Modelled from the spec: checked int64 division (truncating toward
zero, as C++ does), failing on division by zero or INT64_MIN / -1. -/
def SafeMath.div (a b : Int) : Option Int :=
  if b = 0 then none
  else if a = int64Min ∧ b = -1 then none
  else some (Int.tdiv a b)

/-- The unclamped adjustment block of
DirectoryService::CalculateNewDifficulty, computed from the PoW
submission count and the current node count. -/
def rawAdjustment (C : Constants) (powSubmissions currentNodes : Int) : Int :=
  if currentNodes > 0 ∧ currentNodes ≠ powSubmissions then
    let submissionsDiff := (SafeMath.sub powSubmissions currentNodes).getD 0
    let adjustThreshold :=
      Int.tdiv (currentNodes * C.POW_CHANGE_PERCENT_TO_ADJ_DIFF) 100
    let adjustThreshold := if adjustThreshold > 99 then 99 else adjustThreshold
    if |submissionsDiff| < adjustThreshold then
      if submissionsDiff > 0 ∧ powSubmissions > C.NUM_NETWORK_NODE then 1
      else if submissionsDiff < 0 ∧ powSubmissions < C.NUM_NETWORK_NODE then -1
      else 0
    else (SafeMath.div submissionsDiff adjustThreshold).getD 0
  else 0

/-- The MAX_ADJUST_STEP clamp of CalculateNewDifficulty. -/
def clampAdjustment (a : Int) : Int :=
  if a > 2 then 2 else if a < -2 then -2 else a

/-- estimatedBlocksOneYear of CalculateNewDifficulty: seconds per year
divided by the estimated seconds per block, rounded down to a multiple
of NUM_FINAL_BLOCK_PER_POW (all uint64 arithmetic). -/
def annualBlocksEstimate (C : Constants) : Nat :=
  365 * 24 * 3600
      / (C.POW_WINDOW_IN_SECONDS / C.NUM_FINAL_BLOCK_PER_POW
          + C.TX_DISTRIBUTE_TIME_IN_MS / 1000)
    / C.NUM_FINAL_BLOCK_PER_POW * C.NUM_FINAL_BLOCK_PER_POW

/-- The annual-bump condition of CalculateNewDifficulty: within the
first MAX_INCREASE_DIFFICULTY_YEARS = 10 years and exactly at a
year boundary. -/
def annualBumpApplies (C : Constants) (epoch : Nat) : Bool :=
  if epoch / annualBlocksEstimate C ≤ 10 ∧ epoch % annualBlocksEstimate C = 0
  then true else false

/-- newDifficulty before the annual bump: the uint8 cast of
adjustment + currentDifficulty (wrapping mod 256; the adjustment may
be negative), then std::max with POW_DIFFICULTY. -/
def newDifficultyBeforeBump (C : Constants) (a : Int) (d : Nat) : Nat :=
  max ((a + (d : Int)) % 256).toNat C.POW_DIFFICULTY

/-- The tail of CalculateNewDifficulty: apply the clamped adjustment
and, if the annual bump applies, the uint8 increment (wrapping). -/
def finishDifficulty (C : Constants) (e : Nat) (a : Int) (d : Nat) : Nat :=
  if annualBumpApplies C e then (newDifficultyBeforeBump C a d + 1) % 256
  else newDifficultyBeforeBump C a d

/-- DirectoryService::CalculateNewDifficulty as a function of the
current epoch number, the PoW submission count (m_allPoWs.size()),
the active node count (sum of shard sizes) and the current
difficulty. -/
def CalculateNewDifficultyCore (C : Constants) (currentEpochNum : Nat)
    (powSubmissions currentNodes : Int) (currentDifficulty : Nat) : Nat :=
  finishDifficulty C currentEpochNum
    (clampAdjustment (rawAdjustment C powSubmissions currentNodes))
    currentDifficulty

/-- DirectoryService::CalculateNewDifficulty reading its counts from
the member state, as the source does. -/
def CalculateNewDifficulty (C : Constants) (ds : DS)
    (currentDifficulty : Nat) : Nat :=
  CalculateNewDifficultyCore C ds.currentEpochNum
    (ds.allPoWs.length : Int) (((ds.shards.map List.length).sum : Nat) : Int)
    currentDifficulty

/-- The parsed fields of a PoW submission wire message, together with
the raw message size and offset used by the size gate.  Field widths
on the wire: 8 (block number), 1 (difficulty), 4 (port), 33 (public
key), 8 (nonce), 32 (result hash), 32 (mix hash), 32 + 32
(signature). -/
structure PowMessage where
  messageSize : Nat
  offset : Nat
  blockNum : Nat
  difficultyLevel : Nat
  portNo : Nat
  key : Nat
  winningHash : Hash32
  fromIP : Nat
deriving DecidableEq

/-- Results of the external collaborators consulted by the intake
pipeline (treated as black boxes by the spec), plus snapshots of
m_state for the re-reads that happen after blocking operations. -/
structure PowEnv where
  keyDeserializeOK : Bool
  testNetMode : Bool
  inDSWhiteList : Bool
  isValidIP : Bool
  signatureOK : Bool
  powVerifyOK : Bool
  stateAtRecheck : DirState
  stateAfterWait : DirState
deriving DecidableEq

/-- DirectoryService::CheckWhetherDSBlockIsFresh: the submitted block
number must be exactly one past the latest stored DS block. -/
def CheckWhetherDSBlockIsFresh (lookupNodeMode : Bool) (ds : DS)
    (dsblockNum : Nat) : Bool :=
  if lookupNodeMode then true
  else if dsblockNum < ds.lastDSBlockNum + 1 then false
  else if dsblockNum > ds.lastDSBlockNum + 1 then false
  else true

/-- DirectoryService::CheckPoWSubmissionExceedsLimitsForNode: absent
keys are never over the limit; present keys are over the limit when
their counter is not below POW_SUBMISSION_LIMIT. -/
def CheckPoWSubmissionExceedsLimitsForNode (C : Constants) (ds : DS)
    (key : Nat) : Bool :=
  match mapFind ds.allPoWCounter key with
  | none => false
  | some c => decide (¬ c < C.POW_SUBMISSION_LIMIT)

/-- DirectoryService::UpdatePoWSubmissionCounterforNode: emplace 1 for
an absent key, else increment the uint32 counter (wrapping). -/
def UpdatePoWSubmissionCounterforNode (counter : List (Nat × Nat))
    (key : Nat) : List (Nat × Nat) :=
  match mapFind counter key with
  | none => mapEmplace counter key 1
  | some c => mapSet counter key ((c + 1) % 2 ^ 32)

/-- DirectoryService::AddDSPoWs. -/
def AddDSPoWs (m : List (Nat × Hash32)) (k : Nat) (soln : Hash32) :
    List (Nat × Hash32) :=
  mapSet m k soln

/-- DirectoryService::VerifyPoWSubmission: signature check, then the
difficulty admission against the last DS block header (genesis
defaults when the expected block number is 1), then the external PoW
verification. -/
def VerifyPoWSubmission (C : Constants) (lookupNodeMode : Bool) (ds : DS)
    (env : PowEnv) (msg : PowMessage) : Bool :=
  if lookupNodeMode then true
  else if !env.signatureOK then false
  else
    if msg.difficultyLevel
          ≠ (if ds.lastDSBlockNum + 1 > 1 then ds.lastDSDifficulty
             else C.DS_POW_DIFFICULTY)
        ∧ msg.difficultyLevel
          ≠ (if ds.lastDSBlockNum + 1 > 1 then ds.lastDifficulty
             else C.POW_DIFFICULTY)
    then false
    else env.powVerifyOK

/-- DirectoryService::ParseMessageAndVerifyPOW.  The TEST_NET_MODE
whitelist branch of the source only logs and falls through (its body
has no return statement), so it contributes nothing here; the fields
env.testNetMode and env.inDSWhiteList record the condition the source
evaluates.  The post-verification CheckState re-read uses the
env.stateAtRecheck snapshot, since the PoW verification may outlast a
concurrent state transition. -/
def ParseMessageAndVerifyPOW (C : Constants) (lookupNodeMode : Bool)
    (env : PowEnv) (msg : PowMessage) (ds : DS) : Bool × DS :=
  if lookupNodeMode then (true, ds)
  else if !CheckWhetherDSBlockIsFresh lookupNodeMode ds msg.blockNum then
    (false, ds)
  else if !env.keyDeserializeOK then (false, ds)
  else if !CheckState lookupNodeMode ds.mode ds.state Action.VERIFYPOW then
    (true, ds)
  else if !env.isValidIP then (false, ds)
  else if CheckPoWSubmissionExceedsLimitsForNode C ds msg.key then (false, ds)
  else if VerifyPoWSubmission C lookupNodeMode ds env msg then
    if !CheckState lookupNodeMode ds.mode env.stateAtRecheck Action.VERIFYPOW
    then (true, ds)
    else
      (true,
        { ds with
          allPoWConns := mapEmplace ds.allPoWConns msg.key
            (msg.fromIP, msg.portNo),
          allPoWs := mapSet ds.allPoWs msg.key msg.winningHash,
          allDSPoWs :=
            if msg.difficultyLevel
                = (if ds.lastDSBlockNum + 1 > 1 then ds.lastDSDifficulty
                   else C.DS_POW_DIFFICULTY)
            then AddDSPoWs ds.allDSPoWs msg.key msg.winningHash
            else ds.allDSPoWs,
          allPoWCounter :=
            UpdatePoWSubmissionCounterforNode ds.allPoWCounter msg.key })
  else (false, ds)

/-- The expected-size argument ProcessPoWSubmission passes to the size
gate: sizeof(uint64_t) + sizeof(uint32_t) + PUB_KEY_SIZE +
sizeof(uint64_t) + BLOCK_HASH_SIZE + BLOCK_HASH_SIZE +
SIGNATURE_CHALLENGE_SIZE + SIGNATURE_RESPONSE_SIZE. -/
def powSubmissionExpectedSize : Nat := 8 + 4 + 33 + 8 + 32 + 32 + 32 + 32

/-- The number of payload bytes the parser actually consumes, summing
the field widths read by ParseMessageAndVerifyPOW and
VerifyPoWSubmission: 8 (block number) + 1 (difficulty) + 4 (port) +
33 (public key) + 8 (nonce) + 32 (result hash) + 32 (mix hash) +
32 + 32 (signature). -/
def powSubmissionSchemaSize : Nat := 8 + 1 + 4 + 33 + 8 + 32 + 32 + 32 + 32

/-- Modelled from the spec: IsMessageSizeInappropriate lives in common
code outside src; the spec says messages shorter than the expected
payload are rejected as malformed, so the gate fires when the bytes
after the offset are fewer than the expected size. -/
def IsMessageSizeInappropriate (messageSize offset minLengthNeeded : Nat) :
    Bool :=
  messageSize - offset < minLengthNeeded

/-- DirectoryService::ProcessPoWSubmission.  When the state is
FINALBLOCK_CONSENSUS the source waits on a condition variable for a
state transition; the state observed after that wait is the
env.stateAfterWait snapshot. -/
def ProcessPoWSubmission (C : Constants) (lookupNodeMode : Bool)
    (env : PowEnv) (msg : PowMessage) (ds : DS) : Bool × DS :=
  if lookupNodeMode then (true, ds)
  else
    let ds1 := if ds.state = DirState.FINALBLOCK_CONSENSUS
               then { ds with state := env.stateAfterWait } else ds
    if !CheckState lookupNodeMode ds1.mode ds1.state
        Action.PROCESS_POWSUBMISSION then (false, ds1)
    else if IsMessageSizeInappropriate msg.messageSize msg.offset
        powSubmissionExpectedSize then (false, ds1)
    else ParseMessageAndVerifyPOW C lookupNodeMode env msg ds1

/-- DirectoryService::CleanVariables: clears the shard structures, the
four PoW maps, the microblock buffer and sharing assignment, and
resets the view-change counter, mode and consensus ids.  The source
also resets the consensus object, the pending DS block, the final
block and its message, which are external objects not modelled
here. -/
def CleanVariables (lookupNodeMode : Bool) (ds : DS) : Bool × DS :=
  if lookupNodeMode then (true, ds)
  else
    (true,
      { ds with
        shards := [],
        publicKeyToShardIdMap := [],
        allPoWConns := [],
        allPoWs := [],
        allDSPoWs := [],
        allPoWCounter := [],
        microBlocks := [],
        sharingAssignment := [],
        viewChangeCounter := 0,
        mode := Mode.IDLE,
        consensusLeaderID := 0,
        consensusID := 0 })

/-- DirectoryService::ToBlockMessage: block every message while a
resync is in progress. -/
def ToBlockMessage (sync : SyncType) : Bool :=
  decide (sync ≠ SyncType.NO_SYNC)

/-- Size of the ins_handlers table built by DirectoryService::Execute:
six handlers on a non-lookup node, five on a lookup node. -/
def dsInstructionHandlerCount (lookupNodeMode : Bool) : Nat :=
  if lookupNodeMode then 5 else 6

/-- DirectoryService::Execute: insByte is the opcode byte read at the
offset; handlerResult gives the boolean result of the handler at each
table index.  The second component records which handler (if any) was
invoked. -/
def Execute (lookupNodeMode : Bool) (sync : SyncType) (insByte : Nat)
    (handlerResult : Nat → Bool) : Bool × Option Nat :=
  if ToBlockMessage sync then (false, none)
  else if insByte < dsInstructionHandlerCount lookupNodeMode then
    (handlerResult insByte, some insByte)
  else (false, none)

/-- A representative configuration: the values the spec uses in its
boundary scenarios (POW_CHANGE_PERCENT_TO_ADJ_DIFF = 50,
NUM_NETWORK_NODE = 100, POW_WINDOW_IN_SECONDS = 300,
NUM_FINAL_BLOCK_PER_POW = 50, TX_DISTRIBUTE_TIME_IN_MS = 10000,
POW_SUBMISSION_LIMIT = 2) together with the default difficulty
tiers. -/
def demoConstants : Constants :=
  { POW_DIFFICULTY := 3, DS_POW_DIFFICULTY := 5, POW_SUBMISSION_LIMIT := 2,
    NUM_NETWORK_NODE := 100, POW_CHANGE_PERCENT_TO_ADJ_DIFF := 50,
    POW_WINDOW_IN_SECONDS := 300, NUM_FINAL_BLOCK_PER_POW := 50,
    TX_DISTRIBUTE_TIME_IN_MS := 10000 }

/-- A freshly bootstrapped DS leader at epoch 1 with empty PoW pools. -/
def demoNode : DS :=
  { state := DirState.POW_SUBMISSION, mode := Mode.PRIMARY_DS,
    allPoWConns := [], allPoWs := [], allDSPoWs := [], allPoWCounter := [],
    viewChangeCounter := 0, consensusLeaderID := 0, consensusID := 1,
    shards := [], publicKeyToShardIdMap := [], microBlocks := [],
    sharingAssignment := [], lastDSBlockNum := 0, lastDSDifficulty := 0,
    lastDifficulty := 0, currentEpochNum := 1 }

/-- An environment where every external check passes except the
testnet DS whitelist: TEST_NET_MODE is on and the submitter is not
whitelisted. -/
def demoEnv : PowEnv :=
  { keyDeserializeOK := true, testNetMode := true, inDSWhiteList := false,
    isValidIP := true, signatureOK := true, powVerifyOK := true,
    stateAtRecheck := DirState.POW_SUBMISSION,
    stateAfterWait := DirState.POW_SUBMISSION }

/-- A syntactically valid DS-tier submission for demoNode whose payload
after the opcode byte is 181 bytes (one byte short of the 182-byte
wire schema). -/
def demoMsg : PowMessage :=
  { messageSize := 182, offset := 1, blockNum := 1, difficultyLevel := 5,
    portNo := 4001, key := 7, winningHash := 99, fromIP := 77 }

/-- Claim C1: on a non-lookup node whose mode is not Idle, CheckState
returns true exactly for the six permitted (state, action) pairs of
the action table, and false for every other pair (the model is a pure
function of the read state, so it has no side effect). -/
theorem checkState_mirrors_action_table :
    ∀ (mode : Mode) (state : DirState) (action : Action),
      mode ≠ Mode.IDLE →
      (CheckState false mode state action = true ↔
        (state, action) ∈
          [(DirState.POW_SUBMISSION, Action.PROCESS_POWSUBMISSION),
           (DirState.POW_SUBMISSION, Action.VERIFYPOW),
           (DirState.DSBLOCK_CONSENSUS, Action.PROCESS_DSBLOCKCONSENSUS),
           (DirState.MICROBLOCK_SUBMISSION,
             Action.PROCESS_MICROBLOCKSUBMISSION),
           (DirState.FINALBLOCK_CONSENSUS,
             Action.PROCESS_FINALBLOCKCONSENSUS),
           (DirState.VIEWCHANGE_CONSENSUS,
             Action.PROCESS_VIEWCHANGECONSENSUS)]) := by
  decide

/-- Witness for checkState_mirrors_action_table at a concrete
non-Idle mode and a concrete pair. -/
theorem checkState_mirrors_action_table_witness :
    Mode.PRIMARY_DS ≠ Mode.IDLE ∧
      (CheckState false Mode.PRIMARY_DS DirState.POW_SUBMISSION
          Action.VERIFYPOW = true ↔
        (DirState.POW_SUBMISSION, Action.VERIFYPOW) ∈
          [(DirState.POW_SUBMISSION, Action.PROCESS_POWSUBMISSION),
           (DirState.POW_SUBMISSION, Action.VERIFYPOW),
           (DirState.DSBLOCK_CONSENSUS, Action.PROCESS_DSBLOCKCONSENSUS),
           (DirState.MICROBLOCK_SUBMISSION,
             Action.PROCESS_MICROBLOCKSUBMISSION),
           (DirState.FINALBLOCK_CONSENSUS,
             Action.PROCESS_FINALBLOCKCONSENSUS),
           (DirState.VIEWCHANGE_CONSENSUS,
             Action.PROCESS_VIEWCHANGECONSENSUS)]) :=
  ⟨by decide,
    checkState_mirrors_action_table Mode.PRIMARY_DS DirState.POW_SUBMISSION
      Action.VERIFYPOW (by decide)⟩

/-- Claim C8: after CleanVariables on a non-lookup node, the four PoW
maps are empty and the view-change counter is 0. -/
theorem cleanVariables_resets_pow_maps (ds : DS) :
    (CleanVariables false ds).2.allPoWConns = [] ∧
    (CleanVariables false ds).2.allPoWs = [] ∧
    (CleanVariables false ds).2.allDSPoWs = [] ∧
    (CleanVariables false ds).2.allPoWCounter = [] ∧
    (CleanVariables false ds).2.viewChangeCounter = 0 := by
  simp [CleanVariables]

/-- Claim C9: the dispatcher drops every message while a resync is in
progress (no handler invoked, result false), and likewise drops
opcodes at or beyond the handler-table size (6 on a non-lookup node,
5 on a lookup node). -/
theorem execute_sync_guard_and_unknown_opcode (lookupNodeMode : Bool)
    (sync : SyncType) (insByte : Nat) (handlerResult : Nat → Bool) :
    (sync ≠ SyncType.NO_SYNC →
      Execute lookupNodeMode sync insByte handlerResult = (false, none)) ∧
    (dsInstructionHandlerCount lookupNodeMode ≤ insByte →
      Execute lookupNodeMode sync insByte handlerResult = (false, none)) := by
  constructor
  · intro h
    simp [Execute, ToBlockMessage, h]
  · intro h
    unfold Execute
    split
    · rfl
    · rw [if_neg (by omega)]

/-- Witness for execute_sync_guard_and_unknown_opcode: a resyncing
node drops opcode 2, and opcode 9 is unknown on a non-lookup node. -/
theorem execute_sync_guard_and_unknown_opcode_witness :
    Execute false SyncType.DS_SYNC 2 (fun _ => true) = (false, none) ∧
    Execute false SyncType.NO_SYNC 9 (fun _ => true) = (false, none) :=
  ⟨(execute_sync_guard_and_unknown_opcode false SyncType.DS_SYNC 2
      (fun _ => true)).1 (by decide),
   (execute_sync_guard_and_unknown_opcode false SyncType.NO_SYNC 9
      (fun _ => true)).2 (by decide)⟩

/-- Claim C10: with LOOKUP_NODE_MODE set, ProcessPoWSubmission,
CheckState, VerifyPoWSubmission, ParseMessageAndVerifyPOW,
CheckWhetherDSBlockIsFresh and CleanVariables all return true
immediately and leave the node state untouched. -/
theorem lookup_mode_early_returns (C : Constants) (env : PowEnv)
    (msg : PowMessage) (ds : DS) (mode : Mode) (state : DirState)
    (action : Action) (n : Nat) :
    ProcessPoWSubmission C true env msg ds = (true, ds) ∧
    CheckState true mode state action = true ∧
    VerifyPoWSubmission C true ds env msg = true ∧
    ParseMessageAndVerifyPOW C true env msg ds = (true, ds) ∧
    CheckWhetherDSBlockIsFresh true ds n = true ∧
    CleanVariables true ds = (true, ds) := by
  refine ⟨?_, ?_, ?_, ?_, ?_, ?_⟩ <;>
    simp [ProcessPoWSubmission, CheckState, VerifyPoWSubmission,
      ParseMessageAndVerifyPOW, CheckWhetherDSBlockIsFresh, CleanVariables]

/-- Claim C2 (code bug): with TEST_NET_MODE on and the submitter not
in the DS whitelist, the source logs the whitelist failure but falls
through (the branch body has no return), so an otherwise valid
submission is still verified, recorded in all four PoW maps, and the
handler returns true — the claimed rejection does not happen. -/
theorem whitelist_rejection_missing :
    demoEnv.testNetMode = true ∧
    demoEnv.inDSWhiteList = false ∧
    (ParseMessageAndVerifyPOW demoConstants false demoEnv demoMsg
        demoNode).1 = true ∧
    (ParseMessageAndVerifyPOW demoConstants false demoEnv demoMsg
        demoNode).2.allPoWConns = [(7, (77, 4001))] ∧
    (ParseMessageAndVerifyPOW demoConstants false demoEnv demoMsg
        demoNode).2.allPoWs = [(7, 99)] ∧
    (ParseMessageAndVerifyPOW demoConstants false demoEnv demoMsg
        demoNode).2.allDSPoWs = [(7, 99)] ∧
    (ParseMessageAndVerifyPOW demoConstants false demoEnv demoMsg
        demoNode).2.allPoWCounter = [(7, 1)] := by
  decide

/-- Claim C4 (code bug): the expected size that ProcessPoWSubmission
hands to the size gate omits the 1-byte difficulty field, summing to
181 while the parser consumes 182 payload bytes; consequently a
message with only 181 payload bytes after the opcode passes the size
gate and is fully processed (returns true) instead of being rejected
as malformed. -/
theorem pow_size_gate_one_byte_short :
    powSubmissionSchemaSize = 182 ∧
    powSubmissionExpectedSize = 181 ∧
    demoMsg.messageSize - demoMsg.offset = 181 ∧
    IsMessageSizeInappropriate demoMsg.messageSize demoMsg.offset
      powSubmissionExpectedSize = false ∧
    (ProcessPoWSubmission demoConstants false demoEnv demoMsg
        demoNode).1 = true := by
  decide

/-- In state DSBLOCK_CONSENSUS, PROCESS_POWSUBMISSION is not an
allowed action, whatever the node mode. -/
theorem checkState_dsblock_rejects_pow (mode : Mode) :
    CheckState false mode DirState.DSBLOCK_CONSENSUS
      Action.PROCESS_POWSUBMISSION = false := by
  revert mode; decide

/-- Claim C6: while the state is DSBlockConsensus,
ProcessPoWSubmission fails the action gate and returns false with the
node state — in particular all four PoW pool maps — unchanged. -/
theorem processPoW_wrong_state_no_mutation (C : Constants) (env : PowEnv)
    (msg : PowMessage) (ds : DS)
    (h : ds.state = DirState.DSBLOCK_CONSENSUS) :
    ProcessPoWSubmission C false env msg ds = (false, ds) := by
  simp [ProcessPoWSubmission, h, checkState_dsblock_rejects_pow]

/-- Witness for processPoW_wrong_state_no_mutation at the demo inputs
with the state advanced to DSBLOCK_CONSENSUS. -/
theorem processPoW_wrong_state_no_mutation_witness :
    ProcessPoWSubmission demoConstants false demoEnv demoMsg
        { demoNode with state := DirState.DSBLOCK_CONSENSUS }
      = (false, { demoNode with state := DirState.DSBLOCK_CONSENSUS }) :=
  processPoW_wrong_state_no_mutation demoConstants demoEnv demoMsg
    { demoNode with state := DirState.DSBLOCK_CONSENSUS } rfl

/-- Claim C5: when the pipeline reaches PoW verification and the
verification passes, but the re-read of the state after verification
no longer allows VerifyPoW, the submission is dropped without touching
the node state and the handler still returns true. -/
theorem late_recheck_benign_drop (C : Constants) (env : PowEnv)
    (msg : PowMessage) (ds : DS)
    (hfresh : CheckWhetherDSBlockIsFresh false ds msg.blockNum = true)
    (hkey : env.keyDeserializeOK = true)
    (hpre : CheckState false ds.mode ds.state Action.VERIFYPOW = true)
    (hip : env.isValidIP = true)
    (hlim : CheckPoWSubmissionExceedsLimitsForNode C ds msg.key = false)
    (hverify : VerifyPoWSubmission C false ds env msg = true)
    (hre : CheckState false ds.mode env.stateAtRecheck Action.VERIFYPOW
      = false) :
    ParseMessageAndVerifyPOW C false env msg ds = (true, ds) := by
  unfold ParseMessageAndVerifyPOW
  simp [hfresh, hkey, hpre, hip, hlim, hverify, hre]

/-- Witness for late_recheck_benign_drop: the demo submission verifies
in state POW_SUBMISSION but the recheck sees DSBLOCK_CONSENSUS. -/
theorem late_recheck_benign_drop_witness :
    CheckWhetherDSBlockIsFresh false demoNode demoMsg.blockNum = true ∧
    ({ demoEnv with stateAtRecheck := DirState.DSBLOCK_CONSENSUS }
        : PowEnv).keyDeserializeOK = true ∧
    CheckState false demoNode.mode demoNode.state Action.VERIFYPOW = true ∧
    ({ demoEnv with stateAtRecheck := DirState.DSBLOCK_CONSENSUS }
        : PowEnv).isValidIP = true ∧
    CheckPoWSubmissionExceedsLimitsForNode demoConstants demoNode
      demoMsg.key = false ∧
    VerifyPoWSubmission demoConstants false demoNode
      { demoEnv with stateAtRecheck := DirState.DSBLOCK_CONSENSUS }
      demoMsg = true ∧
    CheckState false demoNode.mode DirState.DSBLOCK_CONSENSUS
      Action.VERIFYPOW = false ∧
    ParseMessageAndVerifyPOW demoConstants false
        { demoEnv with stateAtRecheck := DirState.DSBLOCK_CONSENSUS }
        demoMsg demoNode
      = (true, demoNode) :=
  ⟨by decide, by decide, by decide, by decide, by decide, by decide,
   by decide,
   late_recheck_benign_drop demoConstants
     { demoEnv with stateAtRecheck := DirState.DSBLOCK_CONSENSUS }
     demoMsg demoNode (by decide) (by decide) (by decide) (by decide)
     (by decide) (by decide) (by decide)⟩

/-- The MAX_ADJUST_STEP clamp really bounds the adjustment by 2 in
absolute value. -/
theorem clampAdjustment_bounds (a : Int) :
    -2 ≤ clampAdjustment a ∧ clampAdjustment a ≤ 2 := by
  unfold clampAdjustment
  split_ifs <;> omega

/-- Claim C3 counterexample: at the spec's own scenario constants
(POW_DIFFICULTY = 3), with current difficulty 255, no submissions, no
nodes, at the one-year epoch 1971000, CalculateNewDifficulty wraps
the uint8 annual increment of 255 to 0: the result is below
POW_DIFFICULTY and differs from the input by 255, far beyond the
claimed 2 + 1 bound. -/
theorem calculateNewDifficulty_claim_counterexample :
    CalculateNewDifficultyCore demoConstants 1971000 0 0 255 = 0 ∧
    annualBumpApplies demoConstants 1971000 = true ∧
    ¬ (demoConstants.POW_DIFFICULTY
          ≤ CalculateNewDifficultyCore demoConstants 1971000 0 0 255 ∧
        ((CalculateNewDifficultyCore demoConstants 1971000 0 0 255 : Int)
              - 255).natAbs
          ≤ 2 + (if annualBumpApplies demoConstants 1971000 then 1 else 0)) := by
  decide

/-- Claim C3 as amended: for every configuration, epoch, submission
count and node count, whenever the current difficulty d satisfies
POW_DIFFICULTY ≤ d, 2 ≤ d and d ≤ 252 (so no uint8 wrap can occur),
the new difficulty is at least POW_DIFFICULTY and differs from d by at
most 2, plus 1 more when the annual bump applies. -/
theorem calculateNewDifficulty_bounds (C : Constants) (e : Nat)
    (s n : Int) (d : Nat) (hP : C.POW_DIFFICULTY ≤ d) (h2 : 2 ≤ d)
    (h252 : d ≤ 252) :
    C.POW_DIFFICULTY ≤ CalculateNewDifficultyCore C e s n d ∧
    ((CalculateNewDifficultyCore C e s n d : Int) - (d : Int)).natAbs
      ≤ 2 + (if annualBumpApplies C e then 1 else 0) := by
  obtain ⟨hlo, hhi⟩ := clampAdjustment_bounds (rawAdjustment C s n)
  unfold CalculateNewDifficultyCore finishDifficulty newDifficultyBeforeBump
  set a := clampAdjustment (rawAdjustment C s n) with ha
  have hmod : (a + (d : Int)) % 256 = a + (d : Int) :=
    Int.emod_eq_of_lt (by omega) (by omega)
  rw [hmod]
  have htn : (((a + (d : Int)).toNat : Int)) = a + (d : Int) :=
    Int.toNat_of_nonneg (by omega)
  rcases Nat.le_total ((a + (d : Int)).toNat) C.POW_DIFFICULTY with hm | hm
  · rw [Nat.max_eq_right hm]
    split_ifs with hb
    · rw [Nat.mod_eq_of_lt (by omega)]
      omega
    · omega
  · rw [Nat.max_eq_left hm]
    split_ifs with hb
    · rw [Nat.mod_eq_of_lt (by omega)]
      omega
    · omega

/-- Witness for calculateNewDifficulty_bounds at the spec's first
boundary scenario (current difficulty 5, 10 submissions, 10 nodes,
epoch 1). -/
theorem calculateNewDifficulty_bounds_witness :
    demoConstants.POW_DIFFICULTY ≤ 5 ∧ 2 ≤ 5 ∧ (5 : Nat) ≤ 252 ∧
    (demoConstants.POW_DIFFICULTY
        ≤ CalculateNewDifficultyCore demoConstants 1 10 10 5 ∧
      ((CalculateNewDifficultyCore demoConstants 1 10 10 5 : Int)
            - (5 : Int)).natAbs
        ≤ 2 + (if annualBumpApplies demoConstants 1 then 1 else 0)) :=
  ⟨by decide, by decide, by decide,
   calculateNewDifficulty_bounds demoConstants 1 10 10 5 (by decide)
     (by decide) (by decide)⟩

/-- Lookup after an operator[]= style write: the written key reads
back the new value, every other key is untouched. -/
theorem mapFind_mapSet {V : Type} (m : List (Nat × V)) (k k2 : Nat) (v : V) :
    mapFind (mapSet m k v) k2 = if k = k2 then some v else mapFind m k2 := by
  induction m with
  | nil => simp [mapSet, mapFind]
  | cons hd t ih =>
      obtain ⟨k0, v0⟩ := hd
      by_cases h0 : k0 = k
      · subst h0
        by_cases h2 : k0 = k2 <;> simp [mapSet, mapFind, h2]
      · by_cases h2 : k0 = k2
        · subst h2
          simp [mapSet, mapFind, h0]
          rw [if_neg (fun he => h0 he.symm)]
        · simp [mapSet, mapFind, h0, h2, ih]

/-- Lookup after an emplace on an absent key: behaves like a write of
that key. -/
theorem mapFind_mapEmplace_absent {V : Type} (m : List (Nat × V))
    (k k2 : Nat) (v : V) (h : mapFind m k = none) :
    mapFind (mapEmplace m k v) k2
      = if k = k2 then some v else mapFind m k2 := by
  induction m with
  | nil => simp [mapEmplace, mapFind]
  | cons hd t ih =>
      obtain ⟨k0, v0⟩ := hd
      have h0 : ¬ k0 = k := by
        intro he
        simp [mapFind, he] at h
      have ht : mapFind t k = none := by
        simpa [mapFind, h0] using h
      have hemp : mapEmplace ((k0, v0) :: t) k v
          = (k0, v0) :: mapEmplace t k v := by
        simp [mapEmplace, mapFind, h0, ht]
      rw [hemp]
      by_cases h2 : k0 = k2
      · subst h2
        simp [mapFind]
        rw [if_neg (fun he => h0 he.symm)]
      · simp [mapFind, h2, ih ht]

/-- Reading the submission counter after
UpdatePoWSubmissionCounterforNode: the touched key holds its previous
count (0 when absent) plus one, modulo 2^32; other keys are
unchanged. -/
theorem mapFind_update_counter (counter : List (Nat × Nat)) (key k : Nat) :
    mapFind (UpdatePoWSubmissionCounterforNode counter key) k
      = if key = k
        then some (((mapFind counter key).getD 0 + 1) % 2 ^ 32)
        else mapFind counter k := by
  unfold UpdatePoWSubmissionCounterforNode
  cases hf : mapFind counter key with
  | none =>
      rw [mapFind_mapEmplace_absent counter key k 1 hf]
      simp [hf]
  | some c =>
      rw [mapFind_mapSet]
      simp [hf]

/-- If the rate-limit check does not fire for a key, any stored count
for that key is strictly below the limit. -/
theorem not_exceeds_means_below (C : Constants) (ds : DS) (key : Nat)
    (h : CheckPoWSubmissionExceedsLimitsForNode C ds key = false) :
    ∀ c, mapFind ds.allPoWCounter key = some c →
      c < C.POW_SUBMISSION_LIMIT := by
  intro c hc
  unfold CheckPoWSubmissionExceedsLimitsForNode at h
  rw [hc] at h
  simpa using h

set_option maxHeartbeats 1600000 in
/-- The intake pipeline either leaves the submission counter map
untouched, or the rate-limit check had cleared the submitting key and
the counter map is updated for exactly that key. -/
theorem parse_counter_shape (C : Constants) (env : PowEnv)
    (msg : PowMessage) (ds : DS) :
    (ParseMessageAndVerifyPOW C false env msg ds).2.allPoWCounter
        = ds.allPoWCounter ∨
      (CheckPoWSubmissionExceedsLimitsForNode C ds msg.key = false ∧
        (ParseMessageAndVerifyPOW C false env msg ds).2.allPoWCounter
          = UpdatePoWSubmissionCounterforNode ds.allPoWCounter msg.key) := by
  unfold ParseMessageAndVerifyPOW
  split_ifs <;>
    first
      | exact Or.inl rfl
      | exact Or.inr
          ⟨by
            simpa using
              ‹¬CheckPoWSubmissionExceedsLimitsForNode C ds msg.key = true›,
           rfl⟩

/-- Updating the counter for a key the rate-limit gate cleared keeps
every per-key count at or below a positive u32 limit. -/
theorem update_counter_bound (C : Constants) (counter : List (Nat × Nat))
    (key : Nat) (hL1 : 1 ≤ C.POW_SUBMISSION_LIMIT)
    (hL2 : C.POW_SUBMISSION_LIMIT < 2 ^ 32)
    (hgate : ∀ c, mapFind counter key = some c →
      c < C.POW_SUBMISSION_LIMIT)
    (hall : ∀ k, (mapFind counter k).getD 0 ≤ C.POW_SUBMISSION_LIMIT) :
    ∀ k, (mapFind (UpdatePoWSubmissionCounterforNode counter key) k).getD 0
      ≤ C.POW_SUBMISSION_LIMIT := by
  intro k
  rw [mapFind_update_counter]
  split_ifs with hk
  · cases hf : mapFind counter key with
    | none =>
        simp [hf]
        omega
    | some c =>
        have hc := hgate c hf
        simp [hf]
        rw [Nat.mod_eq_of_lt (by omega)]
        omega
  · exact hall k

/-- Claim C7: with a positive u32 POW_SUBMISSION_LIMIT, (i) a key
whose stored count has reached the limit fails the rate-limit check
(an absent key counts as 0 and, the limit being positive, can never
have reached it); (ii) when the pipeline reaches the rate-limit gate
and the check fires, the submission is rejected with no record; and
(iii) the per-key bound count ≤ POW_SUBMISSION_LIMIT is preserved by
the whole intake pipeline, so it holds after every accepted
submission. -/
theorem pow_rate_limit (C : Constants) (env : PowEnv) (msg : PowMessage)
    (ds : DS) (hL1 : 1 ≤ C.POW_SUBMISSION_LIMIT)
    (hL2 : C.POW_SUBMISSION_LIMIT < 2 ^ 32) :
    (C.POW_SUBMISSION_LIMIT ≤ (mapFind ds.allPoWCounter msg.key).getD 0 →
      CheckPoWSubmissionExceedsLimitsForNode C ds msg.key = true) ∧
    (CheckWhetherDSBlockIsFresh false ds msg.blockNum = true →
      env.keyDeserializeOK = true →
      CheckState false ds.mode ds.state Action.VERIFYPOW = true →
      env.isValidIP = true →
      CheckPoWSubmissionExceedsLimitsForNode C ds msg.key = true →
      ParseMessageAndVerifyPOW C false env msg ds = (false, ds)) ∧
    ((∀ k, (mapFind ds.allPoWCounter k).getD 0 ≤ C.POW_SUBMISSION_LIMIT) →
      ∀ k, (mapFind
          (ParseMessageAndVerifyPOW C false env msg ds).2.allPoWCounter
          k).getD 0 ≤ C.POW_SUBMISSION_LIMIT) := by
  refine ⟨?_, ?_, ?_⟩
  · intro h
    unfold CheckPoWSubmissionExceedsLimitsForNode
    cases hf : mapFind ds.allPoWCounter msg.key with
    | none => rw [hf] at h; simp at h; omega
    | some c => rw [hf] at h; simp at h ⊢; omega
  · intro h1 h2 h3 h4 h5
    unfold ParseMessageAndVerifyPOW
    rw [if_neg (by simp), if_neg (by simp [h1]), if_neg (by simp [h2]),
      if_neg (by simp [h3]), if_neg (by simp [h4]), if_pos h5]
  · intro hall k
    rcases parse_counter_shape C env msg ds with h | ⟨hgate, h⟩
    · rw [h]
      exact hall k
    · rw [h]
      exact update_counter_bound C ds.allPoWCounter msg.key hL1 hL2
        (not_exceeds_means_below C ds msg.key hgate) hall k

/-- Witness for pow_rate_limit: with the spec's POW_SUBMISSION_LIMIT
of 2 and a stored count of 2 for the submitting key, the otherwise
valid demo submission is rejected with the node state unchanged. -/
theorem pow_rate_limit_witness :
    1 ≤ demoConstants.POW_SUBMISSION_LIMIT ∧
    demoConstants.POW_SUBMISSION_LIMIT < 2 ^ 32 ∧
    ParseMessageAndVerifyPOW demoConstants false demoEnv demoMsg
        { demoNode with allPoWCounter := [(7, 2)] }
      = (false, { demoNode with allPoWCounter := [(7, 2)] }) :=
  ⟨by decide, by decide,
   (pow_rate_limit demoConstants demoEnv demoMsg
       { demoNode with allPoWCounter := [(7, 2)] } (by decide)
       (by decide)).2.1 (by decide) (by decide) (by decide) (by decide)
     (by decide)⟩

end Zilliqa
